import Mathlib

/-!
Shallow embedding of `generator/src/main/java/com/google/archivepatcher/generator/
bsdiff/wrapper/bsdiff_jni.cc` — the JNI boundary layer of archive-patcher's
native bsdiff patch writer.

Modelling choices, faithful to the C source:
* Errors are thrown via `env->ThrowNew(...)`.  Each throw site is identified by
  the phase of the spec's `OperationError` taxonomy that its message denotes
  ("Unable to open file for mapping" = Open, "Unable to perform fstat()" = Stat,
  "File too large" = SizeCheck, "Mapping the file has failed" = Map,
  "Unable to close file after map failed" / "Unable to close file" = Close,
  "Unable to retrieve one of the diff files" = ArgumentMissing,
  "BsDiff has failed during generation." = AlgorithmFailure).
  `ThrowNew` sets the calling thread's pending exception, REPLACING any
  previously pending one; the caller observes the last exception thrown.
* Operating-system outcomes for a path (whether `open`, `fstat`, `mmap` and the
  two `close` calls succeed, and the file size reported by `fstat`) are an
  oracle `FileModel`; `std::numeric_limits<size_t>::max()` is a parameter
  `sizeMax`.
* Resources are accounted per the spec's §5 resource model: the file-descriptor
  table (`openFds`) and the virtual-memory-mapping table (`mappings`).  A
  descriptor counts as released once `close` is called on it; a mapping counts
  as released once `munmap` is called on it.  `mapAttempts` counts entries into
  `MapFile` (acquisition attempts) and `unmapCalls` counts `munmap` calls.
* The external collaborator `bsdiff::bsdiff` is opaque: for the file entry
  point (whose buffer contents are memory mappings) its outcome is an oracle
  `BsdiffOutcome`; for the byte-array entry point it is a function of the two
  buffer contents.
-/

namespace BsdiffJni

/-- Error phases of the spec's `OperationError` taxonomy; each `ThrowNew` call
site in the source maps to one phase as listed in the header comment. -/
inductive Phase where
  | Open
  | Stat
  | SizeCheck
  | Map
  | Unmap
  | Close
  | AlgorithmFailure
  | ArgumentMissing
  deriving DecidableEq, Repr

/-- Operating-system behaviour oracle for one pathname: which of the syscalls
made by `MapFile` succeed, and the size `fstat` reports.
`closeAfterMapFailOk` is the `close(fd)` at line 69 (cleanup after a failed
`mmap`); `closeAfterMapOk` is the `close(fd)` at line 83 (after a successful
`mmap`). -/
structure FileModel where
  openOk : Bool
  fstatOk : Bool
  size : Nat
  mapOk : Bool
  closeAfterMapFailOk : Bool
  closeAfterMapOk : Bool
  deriving DecidableEq, Repr

/-- Per-invocation JNI/OS state for the file-backed entry point: the pending
exception, the resource accounting of the spec's §5 (open descriptors and live
mappings), and instrumentation counters (`MapFile` entries, `munmap` calls,
and the minimum match length of each `bsdiff::bsdiff` invocation). -/
structure St where
  pending : Option Phase
  openFds : Nat
  mappings : Nat
  mapAttempts : Nat
  unmapCalls : Nat
  encoderCalls : List Nat
  deriving DecidableEq, Repr

/-- The state at the start of an invocation: no pending exception, no resources
held (the spec has no persistent state; every lifetime is scoped to a single
invocation). -/
def st0 : St := ⟨none, 0, 0, 0, 0, []⟩

/-- Embedding of `MapFile` (bsdiff_jni.cc lines 37–91).  Returns `some filesize`
and a live mapping on success, `none` (the C `nullptr`) on failure.  Branches,
in source order:
* `open` fails → throw Open, return (lines 39–45);
* `fstat` fails → throw Stat, return — the descriptor is NOT closed (lines 48–55);
* size exceeds `sizeMax` → throw SizeCheck, `close(fd)`, return (lines 58–64);
* `mmap` fails → `close(fd)`, throwing Close if that close fails, then throw
  Map (which replaces any pending Close), return (lines 68–81);
* `close(fd)` after a successful `mmap` fails → throw Close, return `nullptr`
  with the mapping still live (lines 83–88);
* otherwise return the mapped buffer (line 90). -/
def MapFile (fm : FileModel) (sizeMax : Nat) (s : St) : St × Option Nat :=
  let s := { s with mapAttempts := s.mapAttempts + 1 }
  if !fm.openOk then
    ({ s with pending := some Phase.Open }, none)
  else
    let s := { s with openFds := s.openFds + 1 }
    if !fm.fstatOk then
      ({ s with pending := some Phase.Stat }, none)
    else if sizeMax < fm.size then
      ({ s with pending := some Phase.SizeCheck, openFds := s.openFds - 1 }, none)
    else if !fm.mapOk then
      let s := { s with openFds := s.openFds - 1 }
      let s := if !fm.closeAfterMapFailOk then { s with pending := some Phase.Close } else s
      ({ s with pending := some Phase.Map }, none)
    else
      let s := { s with mappings := s.mappings + 1, openFds := s.openFds - 1 }
      if !fm.closeAfterMapOk then
        ({ s with pending := some Phase.Close }, none)
      else
        (s, some fm.size)

/-- Outcome oracle for one call of the external `bsdiff::bsdiff` collaborator on
the two mapped file buffers: its return code and the patch bytes it wrote
through the patch writer. -/
structure BsdiffOutcome where
  retCode : Int
  patch : List Nat
  deriving DecidableEq, Repr

/-- Embedding of `GeneratePatch` (lines 93–115) for the file-backed entry point,
whose buffer contents are abstract.  Calls `bsdiff::bsdiff` exactly once with
`/* min_length= */ 16` (recorded in `encoderCalls`); a non-zero return code
throws AlgorithmFailure and returns `nullptr`, otherwise the patch bytes become
the result array. -/
def GeneratePatch (out : BsdiffOutcome) (s : St) : St × Option (List Nat) :=
  let s := { s with encoderCalls := s.encoderCalls ++ [16] }
  if out.retCode ≠ 0 then
    ({ s with pending := some Phase.AlgorithmFailure }, none)
  else
    (s, some out.patch)

/-- Input oracle for `nativeGeneratePatchFile`: whether each
`GetStringUTFChars` call returns non-null, and the OS behaviour of each path. -/
structure FilesInput where
  oldRetrieved : Bool
  newRetrieved : Bool
  oldFile : FileModel
  newFile : FileModel
  deriving DecidableEq, Repr

/-- Embedding of `nativeGeneratePatchFile` (lines 120–160).  In source order:
retrieve both path strings (either null → throw ArgumentMissing, return);
`MapFile` the old path, then unconditionally `MapFile` the new path; release the
UTF strings (marshalling scratch, outside the §5 resource model); if the old
buffer is null, `munmap` the new one if it exists and return; if the new buffer
is null, `munmap` the old one and return; otherwise `GeneratePatch` and then
`munmap` both buffers regardless of its outcome. -/
def nativeGeneratePatchFile (inp : FilesInput) (sizeMax : Nat) (out : BsdiffOutcome) :
    St × Option (List Nat) :=
  let s := st0
  if !inp.oldRetrieved || !inp.newRetrieved then
    ({ s with pending := some Phase.ArgumentMissing }, none)
  else
    let p1 := MapFile inp.oldFile sizeMax s
    let p2 := MapFile inp.newFile sizeMax p1.1
    let s := p2.1
    match p1.2 with
    | none =>
        match p2.2 with
        | some _ =>
            ({ s with mappings := s.mappings - 1, unmapCalls := s.unmapCalls + 1 }, none)
        | none => (s, none)
    | some _ =>
        match p2.2 with
        | none =>
            ({ s with mappings := s.mappings - 1, unmapCalls := s.unmapCalls + 1 }, none)
        | some _ =>
            let p3 := GeneratePatch out s
            let s := { p3.1 with mappings := p3.1.mappings - 1,
                                 unmapCalls := p3.1.unmapCalls + 1 }
            let s := { s with mappings := s.mappings - 1, unmapCalls := s.unmapCalls + 1 }
            (s, p3.2)

/-- Acquisition of a path through `MapFile` succeeds (returns a non-null
buffer) exactly when every syscall on its path succeeds and the size check
passes. -/
def mapSucceeds (fm : FileModel) (sizeMax : Nat) : Bool :=
  fm.openOk && fm.fstatOk && decide (fm.size ≤ sizeMax) && fm.mapOk && fm.closeAfterMapOk

/-- One invocation of the external `bsdiff::bsdiff` in the byte-array entry
point: the two scratch buffers handed to it and the minimum match length. -/
structure EncCall where
  oldBuf : List Nat
  newBuf : List Nat
  minLen : Nat
  deriving DecidableEq, Repr

/-- Per-invocation JNI state for the byte-array entry point: the heap of Java
byte arrays (a handle is an index into `arrays`), the pending exception, and
the recorded `bsdiff::bsdiff` invocations. -/
structure DataSt where
  arrays : List (List Nat)
  pending : Option Phase
  encCalls : List EncCall
  deriving DecidableEq, Repr

/-- Embedding of `GetByteArrayRegion(arr, start, len, dest)`: overwrite the
first `len` cells of `dest` with `len` bytes of `arr` starting at `start`. -/
def getByteArrayRegion (arr : List Nat) (start len : Nat) (dest : List Nat) :
    List Nat :=
  (arr.drop start).take len ++ dest.drop len

/-- Embedding of `nativeGeneratePatchData` (lines 163–178) together with the
`GeneratePatch` body it calls (lines 93–115).  In source order: read both array
lengths; allocate two fresh zero-initialised owned buffers of exactly those
lengths (`absl::make_unique<uint8_t[]>`); copy each input array into its buffer
(`GetByteArrayRegion`); call `bsdiff::bsdiff` on the two buffers with
`min_length = 16`; a non-zero return code throws AlgorithmFailure and returns
`nullptr`, otherwise a fresh result array holding the patch bytes is created
(`NewByteArray` + `SetByteArrayRegion`) and its handle returned.  `enc` is the
external collaborator as a function of the two buffer contents, returning the
return code and the patch bytes written through the patch writer. -/
def nativeGeneratePatchData (enc : List Nat → List Nat → Int × List Nat)
    (old_data new_data : Nat) (s : DataSt) : DataSt × Option Nat :=
  let old_size := (s.arrays.getD old_data []).length
  let new_size := (s.arrays.getD new_data []).length
  let old_buf := getByteArrayRegion (s.arrays.getD old_data []) 0 old_size
      (List.replicate old_size 0)
  let new_buf := getByteArrayRegion (s.arrays.getD new_data []) 0 new_size
      (List.replicate new_size 0)
  let s := { s with encCalls := s.encCalls ++ [EncCall.mk old_buf new_buf 16] }
  let r := enc old_buf new_buf
  if r.1 ≠ 0 then
    ({ s with pending := some Phase.AlgorithmFailure }, none)
  else
    ({ s with arrays := s.arrays ++ [r.2] }, some s.arrays.length)

/-! ## Auxiliary lemmas -/

/-- Copying a whole array into a fresh buffer of its own length reproduces the
array's contents. -/
theorem getByteArrayRegion_whole (arr : List Nat) :
    getByteArrayRegion arr 0 arr.length (List.replicate arr.length 0) = arr := by
  simp [getByteArrayRegion]

/-- `MapFile` never calls `munmap`. -/
theorem MapFile_unmapCalls (fm : FileModel) (sizeMax : Nat) (s : St) :
    (MapFile fm sizeMax s).1.unmapCalls = s.unmapCalls := by
  unfold MapFile
  rcases fm with ⟨o, f, sz, mp, c1, c2⟩
  cases o <;> cases f <;> cases mp <;> cases c1 <;> cases c2 <;>
    simp <;> split <;> simp

/-- `MapFile` never invokes the encoder. -/
theorem MapFile_encoderCalls (fm : FileModel) (sizeMax : Nat) (s : St) :
    (MapFile fm sizeMax s).1.encoderCalls = s.encoderCalls := by
  unfold MapFile
  rcases fm with ⟨o, f, sz, mp, c1, c2⟩
  cases o <;> cases f <;> cases mp <;> cases c1 <;> cases c2 <;>
    simp <;> split <;> simp

/-- `MapFile` records exactly one acquisition attempt. -/
theorem MapFile_mapAttempts (fm : FileModel) (sizeMax : Nat) (s : St) :
    (MapFile fm sizeMax s).1.mapAttempts = s.mapAttempts + 1 := by
  unfold MapFile
  rcases fm with ⟨o, f, sz, mp, c1, c2⟩
  cases o <;> cases f <;> cases mp <;> cases c1 <;> cases c2 <;>
    simp <;> split <;> simp

/-- Characterisation of a successful acquisition: the state records one more
attempt and one more live mapping, the descriptor is back to closed, the
pending exception is untouched, and the buffer (with the file's size) is
returned. -/
theorem MapFile_succ (fm : FileModel) (sizeMax : Nat) (s : St)
    (h : mapSucceeds fm sizeMax = true) :
    MapFile fm sizeMax s =
      ({ s with mapAttempts := s.mapAttempts + 1, mappings := s.mappings + 1 },
       some fm.size) := by
  rcases fm with ⟨o, f, sz, mp, c1, c2⟩
  simp only [mapSucceeds, Bool.and_eq_true, decide_eq_true_eq] at h
  obtain ⟨⟨⟨⟨ho, hf⟩, hsz⟩, hmp⟩, hc2⟩ := h
  subst ho; subst hf; subst hmp; subst hc2
  unfold MapFile
  simp [Nat.not_lt.mpr hsz]

/-- A failed acquisition returns the null buffer. -/
theorem MapFile_fail (fm : FileModel) (sizeMax : Nat) (s : St)
    (h : mapSucceeds fm sizeMax = false) :
    (MapFile fm sizeMax s).2 = none := by
  unfold MapFile mapSucceeds at *
  rcases fm with ⟨o, f, sz, mp, c1, c2⟩
  by_cases hsz : sizeMax < sz <;>
    cases o <;> cases f <;> cases mp <;> cases c1 <;> cases c2 <;>
      simp_all [Nat.not_lt] <;> split <;> rfl

/-! ## Claim theorems -/

/-- C1: at a path whose `open` succeeds and whose `fstat` fails, `MapFile`
raises the Stat error and returns the null buffer, but the opened descriptor is
NOT closed: one file descriptor remains open after the call, contradicting the
claim that the handle is closed before the error is returned and that no
resources are held.  (Every other error path of `MapFile` calls `close(fd)`;
the fstat-failure path at lines 48–55 returns without it.) -/
theorem MapFile_fstatFail_leaves_fd_open :
    (MapFile ⟨true, false, 0, true, true, true⟩ 1000 st0).1.pending = some Phase.Stat ∧
    (MapFile ⟨true, false, 0, true, true, true⟩ 1000 st0).2 = none ∧
    (MapFile ⟨true, false, 0, true, true, true⟩ 1000 st0).1.openFds = 1 := by
  decide

/-- C2 counterexample: at a path where `mmap` fails and the cleanup `close`
also fails, the error surfaced to the caller is NOT phase Close — it is phase
Map, because the source throws the Close error first (line 70) and the Map
error afterwards (line 76), and the later `ThrowNew` replaces the pending
exception. -/
theorem MapFile_mapFail_closeFail_not_Close :
    ¬ (MapFile ⟨true, true, 5, false, false, true⟩ 1000 st0).1.pending = some Phase.Close ∧
    (MapFile ⟨true, true, 5, false, false, true⟩ 1000 st0).2 = none := by
  decide

/-- C2 amended: for every path where the map step fails and the subsequent
cleanup close of the handle also fails, both errors are thrown but the error
surfaced to the caller is `OperationError{phase=Map}` — the Map error, thrown
after the Close error, replaces it as the pending exception, so the earlier
(map) failure is what the caller sees; the descriptor is closed and the null
buffer is returned. -/
theorem MapFile_mapFail_closeFail_surfaces_Map (fm : FileModel) (sizeMax : Nat)
    (s : St) (h1 : fm.openOk = true) (h2 : fm.fstatOk = true)
    (h3 : fm.size ≤ sizeMax) (h4 : fm.mapOk = false)
    (h5 : fm.closeAfterMapFailOk = false) :
    (MapFile fm sizeMax s).1.pending = some Phase.Map ∧
    (MapFile fm sizeMax s).2 = none ∧
    (MapFile fm sizeMax s).1.openFds = s.openFds := by
  unfold MapFile
  simp [h1, h2, h4, h5, Nat.not_lt.mpr h3]

/-- C2 amended, instantiated at a concrete path behaviour. -/
theorem MapFile_mapFail_closeFail_surfaces_Map_witness :
    (MapFile ⟨true, true, 7, false, false, true⟩ 100 st0).1.pending = some Phase.Map ∧
    (MapFile ⟨true, true, 7, false, false, true⟩ 100 st0).2 = none ∧
    (MapFile ⟨true, true, 7, false, false, true⟩ 100 st0).1.openFds = st0.openFds :=
  MapFile_mapFail_closeFail_surfaces_Map ⟨true, true, 7, false, false, true⟩ 100 st0
    rfl rfl (by decide) rfl rfl

/-- C9: for every file whose size exceeds the addressable-length limit
(`sizeMax`, modelling the maximum of the platform's `size_t`), `MapFile`
surfaces `OperationError{phase=SizeCheck}`, closes the descriptor before
returning (the fd count is restored), creates no mapping, and returns the null
buffer. -/
theorem MapFile_sizeCheck_closes_no_mapping (fm : FileModel) (sizeMax : Nat)
    (s : St) (h1 : fm.openOk = true) (h2 : fm.fstatOk = true)
    (h3 : sizeMax < fm.size) :
    (MapFile fm sizeMax s).1.pending = some Phase.SizeCheck ∧
    (MapFile fm sizeMax s).2 = none ∧
    (MapFile fm sizeMax s).1.openFds = s.openFds ∧
    (MapFile fm sizeMax s).1.mappings = s.mappings := by
  unfold MapFile
  simp [h1, h2, h3]

/-- C9, instantiated at a file of size 11 on a platform whose size type
addresses at most 10 bytes. -/
theorem MapFile_sizeCheck_closes_no_mapping_witness :
    (MapFile ⟨true, true, 11, true, true, true⟩ 10 st0).1.pending = some Phase.SizeCheck ∧
    (MapFile ⟨true, true, 11, true, true, true⟩ 10 st0).2 = none ∧
    (MapFile ⟨true, true, 11, true, true, true⟩ 10 st0).1.openFds = st0.openFds ∧
    (MapFile ⟨true, true, 11, true, true, true⟩ 10 st0).1.mappings = st0.mappings :=
  MapFile_sizeCheck_closes_no_mapping ⟨true, true, 11, true, true, true⟩ 10 st0
    rfl rfl (by decide)

/-- C3: in `nativeGeneratePatchFile`, with an old path whose `open` succeeds
but whose `fstat` fails and a new path that acquires successfully, the call
does release the succeeded acquisition (one `munmap`, no mapping left) and
propagates the first error (Stat), but ONE file descriptor remains open after
the call returns — the fstat-failure path of `MapFile` never closes the fd —
contradicting the claim that in every acquisition-failure scenario the number
of open resources after the call is zero. -/
theorem fromFiles_statFail_leaves_resource_open :
    (nativeGeneratePatchFile
        ⟨true, true, ⟨true, false, 0, true, true, true⟩, ⟨true, true, 3, true, true, true⟩⟩
        1000 ⟨0, [1]⟩).2 = none ∧
    (nativeGeneratePatchFile
        ⟨true, true, ⟨true, false, 0, true, true, true⟩, ⟨true, true, 3, true, true, true⟩⟩
        1000 ⟨0, [1]⟩).1.pending = some Phase.Stat ∧
    (nativeGeneratePatchFile
        ⟨true, true, ⟨true, false, 0, true, true, true⟩, ⟨true, true, 3, true, true, true⟩⟩
        1000 ⟨0, [1]⟩).1.unmapCalls = 1 ∧
    (nativeGeneratePatchFile
        ⟨true, true, ⟨true, false, 0, true, true, true⟩, ⟨true, true, 3, true, true, true⟩⟩
        1000 ⟨0, [1]⟩).1.mappings = 0 ∧
    (nativeGeneratePatchFile
        ⟨true, true, ⟨true, false, 0, true, true, true⟩, ⟨true, true, 3, true, true, true⟩⟩
        1000 ⟨0, [1]⟩).1.openFds = 1 := by
  decide

/-- C4: in `nativeGeneratePatchFile`, whenever both path arguments are
retrieved and both acquisitions succeed, both mappings are released before the
call returns — two `munmap` calls, no live mapping and no open descriptor —
regardless of the encode outcome (`out.retCode` is arbitrary). -/
theorem fromFiles_bothOk_releases_both (inp : FilesInput) (sizeMax : Nat)
    (out : BsdiffOutcome) (hr1 : inp.oldRetrieved = true)
    (hr2 : inp.newRetrieved = true)
    (h1 : mapSucceeds inp.oldFile sizeMax = true)
    (h2 : mapSucceeds inp.newFile sizeMax = true) :
    (nativeGeneratePatchFile inp sizeMax out).1.mappings = 0 ∧
    (nativeGeneratePatchFile inp sizeMax out).1.unmapCalls = 2 ∧
    (nativeGeneratePatchFile inp sizeMax out).1.openFds = 0 := by
  simp only [nativeGeneratePatchFile, hr1, hr2, Bool.not_true, Bool.or_self,
    Bool.false_eq_true, if_false]
  rw [MapFile_succ _ _ _ h1, MapFile_succ _ _ _ h2]
  unfold GeneratePatch
  by_cases hrc : out.retCode = 0 <;> simp [hrc, st0]

/-- C4, instantiated: both acquisitions succeed and the encoder fails, yet both
mappings are released. -/
theorem fromFiles_bothOk_releases_both_witness :
    (nativeGeneratePatchFile
        ⟨true, true, ⟨true, true, 2, true, true, true⟩, ⟨true, true, 3, true, true, true⟩⟩
        1000 ⟨1, []⟩).1.mappings = 0 ∧
    (nativeGeneratePatchFile
        ⟨true, true, ⟨true, true, 2, true, true, true⟩, ⟨true, true, 3, true, true, true⟩⟩
        1000 ⟨1, []⟩).1.unmapCalls = 2 ∧
    (nativeGeneratePatchFile
        ⟨true, true, ⟨true, true, 2, true, true, true⟩, ⟨true, true, 3, true, true, true⟩⟩
        1000 ⟨1, []⟩).1.openFds = 0 :=
  fromFiles_bothOk_releases_both
    ⟨true, true, ⟨true, true, 2, true, true, true⟩, ⟨true, true, 3, true, true, true⟩⟩
    1000 ⟨1, []⟩ rfl rfl (by decide) (by decide)

/-- C5: in `nativeGeneratePatchFile`, whenever either path argument cannot be
retrieved, the call surfaces `OperationError{phase=ArgumentMissing}` and
returns the null result before any resource acquisition: no `MapFile` attempt
is made, no descriptor or mapping is held, and the encoder is never invoked.
(Resources are the spec's §5 model — descriptors and mappings; the
`GetStringUTFChars` scratch string is boundary marshalling outside it.) -/
theorem fromFiles_argMissing_before_acquisition (inp : FilesInput)
    (sizeMax : Nat) (out : BsdiffOutcome)
    (h : inp.oldRetrieved = false ∨ inp.newRetrieved = false) :
    (nativeGeneratePatchFile inp sizeMax out).2 = none ∧
    (nativeGeneratePatchFile inp sizeMax out).1.pending = some Phase.ArgumentMissing ∧
    (nativeGeneratePatchFile inp sizeMax out).1.mapAttempts = 0 ∧
    (nativeGeneratePatchFile inp sizeMax out).1.openFds = 0 ∧
    (nativeGeneratePatchFile inp sizeMax out).1.mappings = 0 ∧
    (nativeGeneratePatchFile inp sizeMax out).1.encoderCalls = [] := by
  unfold nativeGeneratePatchFile
  rcases h with h | h <;> simp [h, st0]

/-- C5, instantiated: the old path string is null. -/
theorem fromFiles_argMissing_before_acquisition_witness :
    (nativeGeneratePatchFile
        ⟨false, true, ⟨true, true, 2, true, true, true⟩, ⟨true, true, 3, true, true, true⟩⟩
        1000 ⟨0, [1]⟩).2 = none ∧
    (nativeGeneratePatchFile
        ⟨false, true, ⟨true, true, 2, true, true, true⟩, ⟨true, true, 3, true, true, true⟩⟩
        1000 ⟨0, [1]⟩).1.pending = some Phase.ArgumentMissing ∧
    (nativeGeneratePatchFile
        ⟨false, true, ⟨true, true, 2, true, true, true⟩, ⟨true, true, 3, true, true, true⟩⟩
        1000 ⟨0, [1]⟩).1.mapAttempts = 0 ∧
    (nativeGeneratePatchFile
        ⟨false, true, ⟨true, true, 2, true, true, true⟩, ⟨true, true, 3, true, true, true⟩⟩
        1000 ⟨0, [1]⟩).1.openFds = 0 ∧
    (nativeGeneratePatchFile
        ⟨false, true, ⟨true, true, 2, true, true, true⟩, ⟨true, true, 3, true, true, true⟩⟩
        1000 ⟨0, [1]⟩).1.mappings = 0 ∧
    (nativeGeneratePatchFile
        ⟨false, true, ⟨true, true, 2, true, true, true⟩, ⟨true, true, 3, true, true, true⟩⟩
        1000 ⟨0, [1]⟩).1.encoderCalls = [] :=
  fromFiles_argMissing_before_acquisition
    ⟨false, true, ⟨true, true, 2, true, true, true⟩, ⟨true, true, 3, true, true, true⟩⟩
    1000 ⟨0, [1]⟩ (Or.inl rfl)

/-- C6: in both entry points, whenever both BufferSources are available the
external encoder is invoked exactly once, with minimum match length 16: for
`nativeGeneratePatchFile` with both arguments retrieved and both acquisitions
successful the recorded encoder invocations are exactly `[16]`, and
`nativeGeneratePatchData` (whose two copied buffers are always available)
records exactly one invocation with minimum match length 16. -/
theorem encoder_invoked_once_with_16 :
    (∀ (inp : FilesInput) (sizeMax : Nat) (out : BsdiffOutcome),
       inp.oldRetrieved = true → inp.newRetrieved = true →
       mapSucceeds inp.oldFile sizeMax = true →
       mapSucceeds inp.newFile sizeMax = true →
       (nativeGeneratePatchFile inp sizeMax out).1.encoderCalls = [16]) ∧
    (∀ (enc : List Nat → List Nat → Int × List Nat) (old_data new_data : Nat)
       (s : DataSt),
       ((nativeGeneratePatchData enc old_data new_data s).1.encCalls).map
           EncCall.minLen = (s.encCalls.map EncCall.minLen) ++ [16]) := by
  constructor
  · intro inp sizeMax out hr1 hr2 h1 h2
    simp only [nativeGeneratePatchFile, hr1, hr2, Bool.not_true, Bool.or_self,
      Bool.false_eq_true, if_false]
    rw [MapFile_succ _ _ _ h1, MapFile_succ _ _ _ h2]
    unfold GeneratePatch
    by_cases hrc : out.retCode = 0 <;> simp [hrc, st0]
  · intro enc old_data new_data s
    simp only [nativeGeneratePatchData]
    split <;> simp

/-- C6, instantiated: both conjuncts at concrete inputs — a file invocation
with two successfully mapped files and a failing encoder, and a byte-array
invocation over a two-array heap. -/
theorem encoder_invoked_once_with_16_witness :
    (nativeGeneratePatchFile
        ⟨true, true, ⟨true, true, 2, true, true, true⟩, ⟨true, true, 3, true, true, true⟩⟩
        1000 ⟨1, []⟩).1.encoderCalls = [16] ∧
    ((nativeGeneratePatchData (fun a b => (0, a ++ b)) 0 1
        ⟨[[1], [2]], none, []⟩).1.encCalls).map EncCall.minLen =
      (([] : List EncCall).map EncCall.minLen) ++ [16] :=
  ⟨encoder_invoked_once_with_16.1
      ⟨true, true, ⟨true, true, 2, true, true, true⟩, ⟨true, true, 3, true, true, true⟩⟩
      1000 ⟨1, []⟩ rfl rfl (by decide) (by decide),
   encoder_invoked_once_with_16.2 (fun a b => (0, a ++ b)) 0 1 ⟨[[1], [2]], none, []⟩⟩

/-- C7: `nativeGeneratePatchData` fails exactly when the external encoder
reports failure on the two (copied) input buffers; and whenever the encoder
returns a non-zero code, the pending error is
`OperationError{phase=AlgorithmFailure}` and no partial output is returned —
the result is null and no result array is created on the heap. -/
theorem fromBuffers_fails_iff_encoder_fails
    (enc : List Nat → List Nat → Int × List Nat) (old_data new_data : Nat)
    (s : DataSt) :
    ((nativeGeneratePatchData enc old_data new_data s).2 = none ↔
       (enc (s.arrays.getD old_data []) (s.arrays.getD new_data [])).1 ≠ 0) ∧
    ((enc (s.arrays.getD old_data []) (s.arrays.getD new_data [])).1 ≠ 0 →
       (nativeGeneratePatchData enc old_data new_data s).1.pending =
           some Phase.AlgorithmFailure ∧
       (nativeGeneratePatchData enc old_data new_data s).1.arrays = s.arrays) := by
  simp only [nativeGeneratePatchData, getByteArrayRegion_whole]
  split <;> simp_all

/-- C7, instantiated at an encoder that always fails: the AlgorithmFailure
error is pending and the heap is unchanged (no partial output). -/
theorem fromBuffers_fails_iff_encoder_fails_witness :
    (nativeGeneratePatchData (fun _ _ => ((1 : Int), [7])) 0 1
        ⟨[[1], [2]], none, []⟩).1.pending = some Phase.AlgorithmFailure ∧
    (nativeGeneratePatchData (fun _ _ => ((1 : Int), [7])) 0 1
        ⟨[[1], [2]], none, []⟩).1.arrays = [[1], [2]] :=
  (fromBuffers_fails_iff_encoder_fails (fun _ _ => ((1 : Int), [7])) 0 1
    ⟨[[1], [2]], none, []⟩).2 (by decide)

/-- C10: `nativeGeneratePatchData` never modifies its input arrays: for every
pair of valid array handles, the entries at both handles are unchanged after
the call, and the encoder is invoked on fresh buffers that are copies of the
two inputs (byte-for-byte equal, hence of exactly the inputs' lengths). -/
theorem fromBuffers_inputs_unchanged
    (enc : List Nat → List Nat → Int × List Nat) (old_data new_data : Nat)
    (s : DataSt) (h1 : old_data < s.arrays.length)
    (h2 : new_data < s.arrays.length) :
    (nativeGeneratePatchData enc old_data new_data s).1.arrays[old_data]? =
        s.arrays[old_data]? ∧
    (nativeGeneratePatchData enc old_data new_data s).1.arrays[new_data]? =
        s.arrays[new_data]? ∧
    (nativeGeneratePatchData enc old_data new_data s).1.encCalls =
        s.encCalls ++
          [EncCall.mk (s.arrays.getD old_data []) (s.arrays.getD new_data []) 16] := by
  simp only [nativeGeneratePatchData, getByteArrayRegion_whole]
  split <;> simp_all [List.getElem?_append_left]

/-- C10, instantiated on a two-array heap with a succeeding encoder: both
input entries are intact after the call and the encoder received copies. -/
theorem fromBuffers_inputs_unchanged_witness :
    (nativeGeneratePatchData (fun a b => ((0 : Int), a ++ b)) 0 1
        ⟨[[1], [2]], none, []⟩).1.arrays[0]? = some [1] ∧
    (nativeGeneratePatchData (fun a b => ((0 : Int), a ++ b)) 0 1
        ⟨[[1], [2]], none, []⟩).1.arrays[1]? = some [2] ∧
    (nativeGeneratePatchData (fun a b => ((0 : Int), a ++ b)) 0 1
        ⟨[[1], [2]], none, []⟩).1.encCalls = [] ++ [EncCall.mk [1] [2] 16] :=
  fromBuffers_inputs_unchanged (fun a b => ((0 : Int), a ++ b)) 0 1
    ⟨[[1], [2]], none, []⟩ (by decide) (by decide)

/-- C8: in `nativeGeneratePatchFile`, whenever both path arguments are
retrieved, both acquisitions are evaluated — exactly two `MapFile` attempts —
even when the first has already failed; when at least one acquisition fails,
the error propagates (null result) only after both attempts, and exactly the
acquisitions that succeeded are released (`munmap` runs once per successful
acquisition, zero times for failed ones). -/
theorem fromFiles_always_attempts_both (inp : FilesInput) (sizeMax : Nat)
    (out : BsdiffOutcome) (hr1 : inp.oldRetrieved = true)
    (hr2 : inp.newRetrieved = true) :
    (nativeGeneratePatchFile inp sizeMax out).1.mapAttempts = 2 ∧
    (mapSucceeds inp.oldFile sizeMax = false ∨
        mapSucceeds inp.newFile sizeMax = false →
      (nativeGeneratePatchFile inp sizeMax out).2 = none ∧
      (nativeGeneratePatchFile inp sizeMax out).1.unmapCalls =
        (if mapSucceeds inp.oldFile sizeMax then 1 else 0) +
        (if mapSucceeds inp.newFile sizeMax then 1 else 0)) := by
  simp only [nativeGeneratePatchFile, hr1, hr2, Bool.not_true, Bool.or_self,
    Bool.false_eq_true, if_false]
  cases ho : mapSucceeds inp.oldFile sizeMax
  · rw [MapFile_fail _ _ _ ho]
    cases hn : mapSucceeds inp.newFile sizeMax
    · rw [MapFile_fail _ _ _ hn]
      simp [MapFile_mapAttempts, MapFile_unmapCalls, st0]
    · rw [MapFile_succ _ _ _ hn]
      simp [MapFile_mapAttempts, MapFile_unmapCalls, st0]
  · rw [MapFile_succ _ _ _ ho]
    cases hn : mapSucceeds inp.newFile sizeMax
    · rw [MapFile_fail _ _ _ hn]
      simp [MapFile_mapAttempts, MapFile_unmapCalls, st0]
    · rw [MapFile_succ _ _ _ hn]
      unfold GeneratePatch
      by_cases hrc : out.retCode = 0 <;> simp [hrc, st0]

/-- C8, instantiated: the old path fails to open, yet the new path is still
mapped (two attempts), the call fails, and exactly the succeeded acquisition
is unmapped. -/
theorem fromFiles_always_attempts_both_witness :
    (nativeGeneratePatchFile
        ⟨true, true, ⟨false, true, 0, true, true, true⟩, ⟨true, true, 3, true, true, true⟩⟩
        1000 ⟨0, [1]⟩).1.mapAttempts = 2 ∧
    ((nativeGeneratePatchFile
        ⟨true, true, ⟨false, true, 0, true, true, true⟩, ⟨true, true, 3, true, true, true⟩⟩
        1000 ⟨0, [1]⟩).2 = none ∧
     (nativeGeneratePatchFile
        ⟨true, true, ⟨false, true, 0, true, true, true⟩, ⟨true, true, 3, true, true, true⟩⟩
        1000 ⟨0, [1]⟩).1.unmapCalls =
       (if mapSucceeds ⟨false, true, 0, true, true, true⟩ 1000 then 1 else 0) +
       (if mapSucceeds ⟨true, true, 3, true, true, true⟩ 1000 then 1 else 0)) :=
  ⟨(fromFiles_always_attempts_both
      ⟨true, true, ⟨false, true, 0, true, true, true⟩, ⟨true, true, 3, true, true, true⟩⟩
      1000 ⟨0, [1]⟩ rfl rfl).1,
   (fromFiles_always_attempts_both
      ⟨true, true, ⟨false, true, 0, true, true, true⟩, ⟨true, true, 3, true, true, true⟩⟩
      1000 ⟨0, [1]⟩ rfl rfl).2 (Or.inl (by decide))⟩

end BsdiffJni
